import Mathlib

/-!
Verification of the asynchronous USB request/response engine in
`vendor-device.cpp` (classes `UsbSender` and `LibUsbThread`), via a shallow
embedding in Lean 4.  Bytes are modelled as `Nat` values, with `% 256` /
`% 2^16` applied exactly where the C++ truncates; frames are `List Nat`;
the mutable object state of `UsbSender` and `LibUsbThread` is modelled as
explicit state-passing records, and the order of mutex/condvar operations
inside a method body is modelled as a list of primitive actions.
-/

namespace VendorDevice

/-! ## Constants (vendor-device.cpp lines 43, 281-284) -/

def kTimeout : Nat := 1000

def SOF_IDENTIFIER : Nat := 0x5a

def EOF_IDENTIFIER : Nat := 0xa5

def MAX_MESSAGE_SIZE : Nat := 513

def MAX_PACKET_SIZE : Nat := 64

/-! ## Frame construction (UsbSender::SendRequest, lines 151-175)

The C++ fills `m_out_buffer` with:
`[SOF][cmd & 0xff][cmd >> 8][size & 0xff][size >> 8]`, then (only when
`size > 0`) memcpy's the payload, then the EOF byte, then appends a single
zero byte iff the running offset is an exact multiple of `MAX_PACKET_SIZE`.
`command` is a `uint16_t`, so `cmd >> 8` is `cmd / 256` reduced mod 256. -/

def frameHeader (command : Nat) (size : Nat) : List Nat :=
  [SOF_IDENTIFIER, command % 256, command / 256 % 256, size % 256, size / 256 % 256]

def frameBody (command : Nat) (data : List Nat) : List Nat :=
  frameHeader command data.length
    ++ (if data.length > 0 then data else []) ++ [EOF_IDENTIFIER]

def buildFrame (command : Nat) (data : List Nat) : List Nat :=
  if (frameBody command data).length % MAX_PACKET_SIZE = 0
  then frameBody command data ++ [0]
  else frameBody command data

/-- The encode step of `SendRequest`: `none` models the early
`return false` on `size > MAX_MESSAGE_SIZE` (lines 152-155), before any
byte of the frame is written. -/
def SendRequestEncode (command : Nat) (data : List Nat) : Option (List Nat) :=
  if data.length > MAX_MESSAGE_SIZE then none
  else some (buildFrame command data)

/-- Decoding direction used by the round-trip claim: strip the start
marker and the two 16-bit little-endian header fields, read the length
field back, and take that many payload bytes (the end marker and the
optional pad are what remains). -/
def stripPayload (frame : List Nat) : List Nat :=
  (frame.drop 5).take (frame.getD 3 0 + 256 * frame.getD 4 0)

/-! ### Basic facts about the frame layout -/

lemma frameBody_eq (command : Nat) (data : List Nat) :
    frameBody command data = frameHeader command data.length ++ data ++ [EOF_IDENTIFIER] := by
  unfold frameBody
  rcases data with _ | ⟨a, as⟩ <;> simp

lemma frameBody_length (command : Nat) (data : List Nat) :
    (frameBody command data).length = 6 + data.length := by
  rw [frameBody_eq]
  simp [frameHeader]
  omega

lemma buildFrame_eq (command : Nat) (data : List Nat) :
    buildFrame command data =
      frameHeader command data.length ++ data ++ [EOF_IDENTIFIER]
        ++ (if (6 + data.length) % 64 = 0 then [0] else []) := by
  unfold buildFrame MAX_PACKET_SIZE
  rw [frameBody_length, frameBody_eq]
  by_cases h : (6 + data.length) % 64 = 0
  · rw [if_pos h, if_pos h]
  · rw [if_neg h, if_neg h]
    simp

lemma stripPayload_buildFrame (command : Nat) (data : List Nat)
    (h : data.length ≤ MAX_MESSAGE_SIZE) :
    stripPayload (buildFrame command data) = data := by
  rw [buildFrame_eq]
  unfold stripPayload frameHeader
  have hlt : data.length < 65536 := by
    unfold MAX_MESSAGE_SIZE at h; omega
  have hdiv : data.length / 256 % 256 = data.length / 256 := by
    apply Nat.mod_eq_of_lt
    omega
  have hlen : data.length % 256 + 256 * (data.length / 256 % 256) = data.length := by
    rw [hdiv]
    exact Nat.mod_add_div data.length 256
  have h3 : ((([SOF_IDENTIFIER, command % 256, command / 256 % 256,
        data.length % 256, data.length / 256 % 256] ++ data ++ [EOF_IDENTIFIER]
        ++ (if (6 + data.length) % 64 = 0 then [0] else [])) : List Nat).getD 3 0)
      = data.length % 256 := by
    simp [List.getD]
  have h4 : ((([SOF_IDENTIFIER, command % 256, command / 256 % 256,
        data.length % 256, data.length / 256 % 256] ++ data ++ [EOF_IDENTIFIER]
        ++ (if (6 + data.length) % 64 = 0 then [0] else [])) : List Nat).getD 4 0)
      = data.length / 256 % 256 := by
    simp [List.getD]
  rw [h3, h4, hlen]
  have hdrop : (([SOF_IDENTIFIER, command % 256, command / 256 % 256,
        data.length % 256, data.length / 256 % 256] ++ data ++ [EOF_IDENTIFIER]
        ++ (if (6 + data.length) % 64 = 0 then [0] else [])) : List Nat).drop 5
      = data ++ ([EOF_IDENTIFIER] ++ (if (6 + data.length) % 64 = 0 then [0] else [])) := by
    simp
  rw [hdrop, List.take_append_of_le_length (le_refl _), List.take_length]

end VendorDevice

namespace VendorDevice

/-- C1: for every command and payload of length ≤ 513, the frame built by
`SendRequest` is exactly `[0x5A][cmdLo][cmdHi][lenLo][lenHi][payload][0xA5]`
plus an optional single zero pad, and stripping markers/header recovers the
payload; for length > 513 the encode fails; `encode(0x0081,[1,2,3])` is
exactly the 9 bytes `5A 81 00 03 00 01 02 03 A5`. -/
theorem C1_encode_roundtrip (command : Nat) (data : List Nat) :
    (data.length ≤ 513 →
      SendRequestEncode command data =
        some ([0x5a, command % 256, command / 256 % 256,
               data.length % 256, data.length / 256 % 256]
              ++ data ++ [0xa5]
              ++ (if (6 + data.length) % 64 = 0 then [0] else []))
      ∧ ∀ f, SendRequestEncode command data = some f → stripPayload f = data)
    ∧ (data.length > 513 → SendRequestEncode command data = none)
    ∧ SendRequestEncode 0x0081 [1, 2, 3] =
        some [0x5a, 0x81, 0x00, 0x03, 0x00, 0x01, 0x02, 0x03, 0xa5] := by
  refine ⟨fun h => ⟨?_, ?_⟩, fun h => ?_, by decide⟩
  · unfold SendRequestEncode
    rw [if_neg (by unfold MAX_MESSAGE_SIZE; omega), buildFrame_eq]
    rfl
  · intro f hf
    unfold SendRequestEncode at hf
    rw [if_neg (by unfold MAX_MESSAGE_SIZE; omega)] at hf
    cases hf
    exact stripPayload_buildFrame command data h
  · unfold SendRequestEncode
    rw [if_pos (by unfold MAX_MESSAGE_SIZE; omega)]

/-- Witness for C1 at the concrete input `command = 0x0081`,
`data = [1,2,3]` (and the overflow case at a 514-byte payload). -/
theorem C1_encode_roundtrip_witness :
    SendRequestEncode 0x0081 [1, 2, 3] =
        some [0x5a, 0x81, 0x00, 0x03, 0x00, 0x01, 0x02, 0x03, 0xa5]
    ∧ stripPayload [0x5a, 0x81, 0x00, 0x03, 0x00, 0x01, 0x02, 0x03, 0xa5] = [1, 2, 3]
    ∧ SendRequestEncode 0 (List.replicate 514 0) = none := by
  refine ⟨(C1_encode_roundtrip 0x0081 [1, 2, 3]).2.2, ?_, ?_⟩
  · have h := ((C1_encode_roundtrip 0x0081 [1, 2, 3]).1 (by decide)).2
      [0x5a, 0x81, 0x00, 0x03, 0x00, 0x01, 0x02, 0x03, 0xa5]
      (C1_encode_roundtrip 0x0081 [1, 2, 3]).2.2
    exact h
  · exact (C1_encode_roundtrip 0 (List.replicate 514 0)).2.1
      (by rw [List.length_replicate]; omega)

end VendorDevice

namespace VendorDevice

/-- C5: for every successfully encoded frame, a single trailing zero pad
byte is appended iff the pre-pad frame length `1+2+2+payload+1 = 6+payload`
is a multiple of 64 (final length `original+1` in that case, unpadded
otherwise); a payload of length 58 yields a 64-byte pre-pad frame padded
to 65 bytes. -/
theorem C5_padding (command : Nat) (data : List Nat) (f : List Nat)
    (hf : SendRequestEncode command data = some f) :
    ((6 + data.length) % 64 = 0 →
        f = frameBody command data ++ [0] ∧ f.length = (6 + data.length) + 1
          ∧ f.getLast? = some 0)
    ∧ ((6 + data.length) % 64 ≠ 0 →
        f = frameBody command data ∧ f.length = 6 + data.length) := by
  have hfb : f = buildFrame command data := by
    unfold SendRequestEncode at hf
    split at hf
    · exact absurd hf (by simp)
    · exact (Option.some.inj hf).symm
  subst hfb
  unfold buildFrame MAX_PACKET_SIZE
  rw [frameBody_length]
  constructor <;> intro h
  · rw [if_pos h]
    refine ⟨rfl, ?_, ?_⟩
    · rw [List.length_append, frameBody_length]
      rfl
    · simp
  · rw [if_neg h]
    exact ⟨rfl, frameBody_length command data⟩

/-- Witness for C5 at a payload of 58 bytes: the encoded frame carries
the pad byte and is 65 bytes long. -/
theorem C5_padding_witness :
    buildFrame 0 (List.replicate 58 7) = frameBody 0 (List.replicate 58 7) ++ [0]
    ∧ (buildFrame 0 (List.replicate 58 7)).length = 65 := by
  have h := (C5_padding 0 (List.replicate 58 7) (buildFrame 0 (List.replicate 58 7)) rfl).1
    (by rw [List.length_replicate])
  refine ⟨h.1, ?_⟩
  have h2 := h.2.1
  rw [List.length_replicate] at h2
  omega

/-- C10: encoding the empty payload always succeeds and produces exactly
the 6-byte frame `[0x5A][cmdLo][cmdHi][0x00][0x00][0xA5]` with no pad
byte; the payload-copy step contributes no bytes when the length is 0. -/
theorem C10_empty_payload (command : Nat) :
    SendRequestEncode command [] =
      some [0x5a, command % 256, command / 256 % 256, 0, 0, 0xa5]
    ∧ frameBody command [] = frameHeader command 0 ++ [EOF_IDENTIFIER] := by
  constructor
  · unfold SendRequestEncode
    rw [if_neg (by simp [MAX_MESSAGE_SIZE])]
    rw [buildFrame_eq]
    simp [frameHeader, SOF_IDENTIFIER, EOF_IDENTIFIER]
  · simp [frameBody, frameHeader]

end VendorDevice

namespace VendorDevice

/-! ## UsbSender state (vendor-device.cpp lines 132-285)

The mutable state of one `UsbSender`: `m_got_response` (`got_response`),
whether an out/in transfer is currently submitted and with what timeout,
and the raw bytes last printed by the in-completion callback (`received`
models the observation of `m_in_transfer->buffer`).  libusb transfer
statuses are the `libusb_transfer_status` enumerators. -/

inductive TransferStatus
  | completed
  | error
  | timedOut
  | cancelled
  | stall
  | noDevice
  | overflow
  deriving DecidableEq, Repr

structure UsbSenderState where
  got_response : Bool
  out_submitted : Bool
  in_submitted : Bool
  out_timeout : Option Nat
  in_timeout : Option Nat
  received : List Nat
  deriving DecidableEq, Repr

/-- State after the `UsbSender` constructor (lines 134-144):
`m_got_response(false)`, no transfer submitted. -/
def initSender : UsbSenderState :=
  { got_response := false, out_submitted := false, in_submitted := false,
    out_timeout := none, in_timeout := none, received := [] }

/-- `UsbSender::SendRequest` (lines 151-191) as a state transition: on an
oversized payload it returns `false` having changed nothing; otherwise it
fills and submits the out transfer with timeout `kTimeout` and returns
`true` (the successful-submission case).  It never touches
`m_got_response`. -/
def SendRequest (s : UsbSenderState) (command : Nat) (data : List Nat) :
    Bool × UsbSenderState :=
  match SendRequestEncode command data with
  | none => (false, s)
  | some _ => (true, { s with out_submitted := true, out_timeout := some kTimeout })

/-- `UsbSender::SubmitInTransfer` (lines 267-279): fills and submits the
in transfer with timeout `kTimeout`. -/
def SubmitInTransfer (s : UsbSenderState) : UsbSenderState :=
  { s with in_submitted := true, in_timeout := some kTimeout }

/-- `UsbSender::_OutTransferComplete` (lines 193-202): the out transfer
has completed (so it is no longer in flight); only on
`LIBUSB_TRANSFER_COMPLETED` does it call `SubmitInTransfer`; on every
other status it does nothing further (no flag set, no signal, no throw). -/
def OutTransferComplete (s : UsbSenderState) (status : TransferStatus) :
    UsbSenderState :=
  if status = TransferStatus.completed
  then SubmitInTransfer { s with out_submitted := false }
  else { s with out_submitted := false }

/-- `UsbSender::_InTransferComplete` (lines 204-226): the in transfer has
completed; only on `LIBUSB_TRANSFER_COMPLETED` are the received bytes
printed (recorded here in `received`); then, regardless of status, it
sets `m_got_response = true` under the mutex and signals the condition
variable. -/
def InTransferComplete (s : UsbSenderState) (status : TransferStatus)
    (bytes : List Nat) : UsbSenderState :=
  let s1 := if status = TransferStatus.completed
            then { s with received := bytes } else s
  { s1 with in_submitted := false, got_response := true }

/-- `UsbSender::Wait` (lines 228-237) observed behaviour: return at once
when `m_got_response` already holds, else block on the condition variable
until signalled.  `Wait` takes no timeout argument and does not modify
the state. -/
inductive WaitResult
  | immediate
  | blockedUntilSignal
  deriving DecidableEq, Repr

def WaitBehavior (s : UsbSenderState) : WaitResult :=
  if s.got_response then WaitResult.immediate else WaitResult.blockedUntilSignal

/-! ### Completion events delivered by the libusb event loop

A completion callback can only fire for a transfer that is currently
submitted; this is the interface guarantee of
`libusb_submit_transfer`/`libusb_handle_events`. -/

inductive ChannelEvent
  | outComplete (status : TransferStatus)
  | inComplete (status : TransferStatus) (bytes : List Nat)

def eventEnabled (s : UsbSenderState) : ChannelEvent → Bool
  | ChannelEvent.outComplete _ => s.out_submitted
  | ChannelEvent.inComplete _ _ => s.in_submitted

def applyEvent (s : UsbSenderState) : ChannelEvent → UsbSenderState
  | ChannelEvent.outComplete status => OutTransferComplete s status
  | ChannelEvent.inComplete status bytes => InTransferComplete s status bytes

/-- States reachable from `s` by any sequence of enabled completion
events. -/
inductive Reachable : UsbSenderState → UsbSenderState → Prop
  | refl (s : UsbSenderState) : Reachable s s
  | step {s t : UsbSenderState} (e : ChannelEvent) (he : eventEnabled s e = true)
      (h : Reachable (applyEvent s e) t) : Reachable s t

/-- In a state with neither transfer submitted, no completion event is
enabled, so nothing is reachable but the state itself. -/
lemma reachable_of_idle {s t : UsbSenderState}
    (hout : s.out_submitted = false) (hin : s.in_submitted = false)
    (h : Reachable s t) : t = s := by
  cases h with
  | refl _ => rfl
  | step e he _ =>
      cases e with
      | outComplete status => rw [eventEnabled, hout] at he; cases he
      | inComplete status bytes => rw [eventEnabled, hin] at he; cases he

end VendorDevice

namespace VendorDevice

/-! ### Mutex/condvar ordering inside `_InTransferComplete` (lines 209-225) -/

inductive SyncAction
  | lockMutex
  | unlockMutex
  | setGotResponse
  | signalCond
  | recordBytes
  deriving DecidableEq, Repr

/-- The order of steps in `_InTransferComplete`: the received bytes are
printed first and only on success; then `pthread_mutex_lock`,
`m_got_response = true`, `pthread_mutex_unlock`, `pthread_cond_signal`. -/
def inTransferCompleteTrace (status : TransferStatus) : List SyncAction :=
  (if status = TransferStatus.completed then [SyncAction.recordBytes] else [])
    ++ [SyncAction.lockMutex, SyncAction.setGotResponse,
        SyncAction.unlockMutex, SyncAction.signalCond]

/-- Every `setGotResponse` in the trace happens while the mutex is held
(first argument: is the mutex held on entry). -/
def flagSetUnderMutex : Bool → List SyncAction → Bool
  | _, [] => true
  | _, SyncAction.lockMutex :: r => flagSetUnderMutex true r
  | _, SyncAction.unlockMutex :: r => flagSetUnderMutex false r
  | held, SyncAction.setGotResponse :: r => held && flagSetUnderMutex held r
  | held, a :: r =>
      match a with
      | SyncAction.signalCond => flagSetUnderMutex held r
      | SyncAction.recordBytes => flagSetUnderMutex held r
      | _ => flagSetUnderMutex held r

lemma got_response_mono {s t : UsbSenderState} (h : Reachable s t)
    (hg : s.got_response = true) : t.got_response = true := by
  induction h with
  | refl _ => exact hg
  | step e he h ih =>
      apply ih
      cases e with
      | outComplete status =>
          show (OutTransferComplete _ status).got_response = true
          unfold OutTransferComplete SubmitInTransfer
          split <;> exact hg
      | inComplete status bytes => rfl

end VendorDevice

namespace VendorDevice

/-- C3 counterexample: after `SendRequest` succeeds and the out transfer
completes with a non-success status (here `LIBUSB_TRANSFER_ERROR`), there
is NO reachable state in which `m_got_response` holds — no completion
event is even enabled any more — so `Wait` can never return; the claim
that `wait()` still eventually returns is false on this code. -/
theorem C3_counterexample :
    ¬ ∃ t, Reachable (OutTransferComplete
          (SendRequest initSender 0x81 [1, 2, 3]).2 TransferStatus.error) t
        ∧ t.got_response = true := by
  rintro ⟨t, hr, hg⟩
  have ht := reachable_of_idle (by decide) (by decide) hr
  rw [ht] at hg
  exact absurd hg (by decide)

/-- C3 (amended): if the out transfer's completion callback runs with any
non-success status, `wait()` does NOT eventually return: no inbound
transfer is submitted, no completion event remains enabled, so in every
reachable state `m_got_response` is still false and `Wait` stays blocked
on the condition variable; the exchange is left faulted, never
response-ready. -/
theorem C3_fault_never_unblocks (s : UsbSenderState) (status : TransferStatus)
    (hstatus : status ≠ TransferStatus.completed)
    (hin : s.in_submitted = false) (hresp : s.got_response = false)
    (t : UsbSenderState)
    (ht : Reachable (OutTransferComplete s status) t) :
    t.got_response = false
    ∧ WaitBehavior t = WaitResult.blockedUntilSignal := by
  have h1 : OutTransferComplete s status = { s with out_submitted := false } := by
    unfold OutTransferComplete
    rw [if_neg hstatus]
  have heq := reachable_of_idle (by rw [h1]) (by rw [h1]; exact hin) ht
  rw [heq, h1]
  refine ⟨hresp, ?_⟩
  unfold WaitBehavior
  simp [hresp]

/-- Witness for C3's amended theorem: concrete faulted exchange after a
transfer timeout. -/
theorem C3_fault_never_unblocks_witness :
    (OutTransferComplete (SendRequest initSender 0x81 [1, 2, 3]).2
        TransferStatus.timedOut).got_response = false
    ∧ WaitBehavior (OutTransferComplete (SendRequest initSender 0x81 [1, 2, 3]).2
        TransferStatus.timedOut) = WaitResult.blockedUntilSignal :=
  C3_fault_never_unblocks (SendRequest initSender 0x81 [1, 2, 3]).2
    TransferStatus.timedOut (by decide) (by decide) (by decide)
    _ (Reachable.refl _)

/-- C4: the out-completion callback submits the inbound transfer iff the
status is success, with the same `kTimeout = 1000` ms that `SendRequest`
used for the outbound transfer; on any other status nothing is submitted,
no exception propagates (the transition is total), `m_got_response` is
unchanged, and the caller's subsequent `wait()` blocks indefinitely. -/
theorem C4_out_callback (s : UsbSenderState) (status : TransferStatus)
    (hin : s.in_submitted = false) :
    (status = TransferStatus.completed →
        (OutTransferComplete s status).in_submitted = true
        ∧ (OutTransferComplete s status).in_timeout = some kTimeout
        ∧ kTimeout = 1000)
    ∧ (status ≠ TransferStatus.completed →
        (OutTransferComplete s status).in_submitted = false
        ∧ (OutTransferComplete s status).got_response = s.got_response
        ∧ (s.got_response = false →
            ∀ t, Reachable (OutTransferComplete s status) t →
              WaitBehavior t = WaitResult.blockedUntilSignal))
    ∧ (∀ command data frame, SendRequestEncode command data = some frame →
        ((SendRequest s command data).2).out_timeout = some kTimeout) := by
  refine ⟨fun h => ?_, fun h => ?_, fun command data frame hf => ?_⟩
  · unfold OutTransferComplete SubmitInTransfer
    rw [if_pos h]
    exact ⟨rfl, rfl, rfl⟩
  · have h1 : OutTransferComplete s status = { s with out_submitted := false } := by
      unfold OutTransferComplete
      rw [if_neg h]
    refine ⟨by rw [h1]; exact hin, by rw [h1], fun hresp t ht => ?_⟩
    have heq := reachable_of_idle (by rw [h1]) (by rw [h1]; exact hin) ht
    rw [heq, h1]
    unfold WaitBehavior
    simp [hresp]
  · unfold SendRequest
    rw [hf]

/-- Witness for C4: on success the inbound transfer is submitted with
timeout 1000; on a stall it is not. -/
theorem C4_out_callback_witness :
    ((OutTransferComplete initSender TransferStatus.completed).in_submitted = true
      ∧ (OutTransferComplete initSender TransferStatus.completed).in_timeout = some 1000)
    ∧ (OutTransferComplete initSender TransferStatus.stall).in_submitted = false := by
  have hok := (C4_out_callback initSender TransferStatus.completed rfl).1 rfl
  have hbad := ((C4_out_callback initSender TransferStatus.stall rfl).2.1 (by decide)).1
  exact ⟨⟨hok.1, by rw [hok.2.1, hok.2.2]⟩, hbad⟩

end VendorDevice

namespace VendorDevice

/-- C6: whenever the in-completion callback runs, regardless of status
(timeout included), it sets `m_got_response` to true — under the mutex —
and signals the condition variable; the raw received bytes are recorded
only when the status is success.  Hence a transport-level inbound timeout
still unblocks the waiter, with no payload recorded. -/
theorem C6_in_callback (s : UsbSenderState) (status : TransferStatus)
    (bytes : List Nat) :
    (InTransferComplete s status bytes).got_response = true
    ∧ (InTransferComplete s status bytes).received
        = (if status = TransferStatus.completed then bytes else s.received)
    ∧ flagSetUnderMutex false (inTransferCompleteTrace status) = true
    ∧ SyncAction.signalCond ∈ inTransferCompleteTrace status
    ∧ (SyncAction.recordBytes ∈ inTransferCompleteTrace status
        ↔ status = TransferStatus.completed)
    ∧ ((InTransferComplete s TransferStatus.timedOut bytes).received = s.received
        ∧ WaitBehavior (InTransferComplete s TransferStatus.timedOut bytes)
            = WaitResult.immediate) := by
  by_cases h : status = TransferStatus.completed
  · subst h
    refine ⟨rfl, ?_, by decide, by decide, by decide, rfl, rfl⟩
    unfold InTransferComplete
    simp
  · refine ⟨rfl, ?_, ?_, ?_, ?_, rfl, rfl⟩
    · unfold InTransferComplete
      rw [if_neg h, if_neg h]
    · unfold inTransferCompleteTrace
      rw [if_neg h]
      decide
    · unfold inTransferCompleteTrace
      rw [if_neg h]
      decide
    · unfold inTransferCompleteTrace
      rw [if_neg h]
      simp only [List.nil_append]
      constructor
      · intro hmem
        exact absurd hmem (by decide)
      · intro hc
        exact absurd hc h

/-- C7: `Wait` returns immediately iff `m_got_response` is already true
(the response callback already fired), and otherwise blocks on the
condition variable until signalled; `WaitBehavior` is a function of the
channel state alone — it has no timeout parameter. -/
theorem C7_wait (s : UsbSenderState) :
    (s.got_response = true → WaitBehavior s = WaitResult.immediate)
    ∧ (s.got_response = false →
        WaitBehavior s = WaitResult.blockedUntilSignal) := by
  unfold WaitBehavior
  constructor <;> intro h <;> simp [h]

/-- Witness for C7: on the fresh channel `Wait` blocks; after an
in-completion it returns immediately. -/
theorem C7_wait_witness :
    WaitBehavior initSender = WaitResult.blockedUntilSignal
    ∧ WaitBehavior (InTransferComplete initSender TransferStatus.completed [5])
        = WaitResult.immediate :=
  ⟨(C7_wait initSender).2 rfl,
   (C7_wait (InTransferComplete initSender TransferStatus.completed [5])).1 rfl⟩

/-- C8: `SendRequest` never resets `m_got_response` (no operation does):
once an in-completion callback has set it, it stays true, and `Wait`
returns immediately on every later exchange even before that exchange's
own callbacks run. -/
theorem C8_sticky_response (s : UsbSenderState) (command : Nat)
    (data : List Nat) (status : TransferStatus) (bytes : List Nat) :
    ((SendRequest s command data).2.got_response = s.got_response)
    ∧ (s.got_response = true →
        (OutTransferComplete s status).got_response = true
        ∧ (InTransferComplete s status bytes).got_response = true
        ∧ WaitBehavior (SendRequest s command data).2 = WaitResult.immediate
        ∧ ∀ t, Reachable s t → t.got_response = true) := by
  have hsend : (SendRequest s command data).2.got_response = s.got_response := by
    unfold SendRequest
    cases SendRequestEncode command data <;> rfl
  refine ⟨hsend, fun hg => ⟨?_, rfl, ?_, fun t ht => got_response_mono ht hg⟩⟩
  · unfold OutTransferComplete SubmitInTransfer
    split <;> exact hg
  · unfold WaitBehavior
    rw [hsend, hg]
    rfl

/-- Witness for C8: after one completed exchange, a second `SendRequest`
leaves the flag set and `Wait` would return immediately. -/
theorem C8_sticky_response_witness :
    WaitBehavior (SendRequest
        (InTransferComplete initSender TransferStatus.completed [9]) 0x80 [1]).2
      = WaitResult.immediate :=
  (((C8_sticky_response (InTransferComplete initSender TransferStatus.completed [9])
      0x80 [1] TransferStatus.error []).2 rfl).2.2).1

end VendorDevice

namespace VendorDevice

/-! ## LibUsbThread (vendor-device.cpp lines 62-126)

`m_devices` is the open-device count, `m_terminate` the mutex-guarded
stop flag; `threadRunning` models whether the pthread started by
`OpenDevice` is still executing `_InternalRun`; `spawnCount`/`joinCount`
count the `pthread_create`/`pthread_join` calls. -/

structure LibUsbThreadState where
  terminate : Bool
  devices : Nat
  threadRunning : Bool
  spawnCount : Nat
  joinCount : Nat
  deriving DecidableEq, Repr

/-- State after the `LibUsbThread` constructor (lines 64-70). -/
def initThread : LibUsbThreadState :=
  { terminate := false, devices := 0, threadRunning := false,
    spawnCount := 0, joinCount := 0 }

/-- `LibUsbThread::OpenDevice` (lines 77-91) with `libusb_open`
succeeding: increments `m_devices` and calls `pthread_create` exactly
when the incremented count is 1. -/
def OpenDevice (s : LibUsbThreadState) : LibUsbThreadState :=
  if s.devices + 1 = 1
  then { s with devices := s.devices + 1, threadRunning := true,
                spawnCount := s.spawnCount + 1 }
  else { s with devices := s.devices + 1 }

/-- `LibUsbThread::CloseDevice` (lines 93-107): whenever `m_devices > 0`
— i.e. on EVERY close while any device is open, not only the last — it
sets `m_terminate = true` under the mutex; then closes the handle,
decrements the count, and when the count reaches 0 calls `pthread_join`,
which returns only after the thread has exited. -/
def CloseDevice (s : LibUsbThreadState) : LibUsbThreadState :=
  let t := if s.devices > 0 then true else s.terminate
  if s.devices - 1 = 0
  then { s with terminate := t, devices := s.devices - 1,
                threadRunning := false, joinCount := s.joinCount + 1 }
  else { s with terminate := t, devices := s.devices - 1 }

/-- One check of the loop condition by the background thread running
`_InternalRun` (lines 109-118): if the thread is alive and observes
`m_terminate`, it returns and the thread exits; otherwise it runs
`libusb_handle_events` and loops. -/
def ThreadStep (s : LibUsbThreadState) : LibUsbThreadState :=
  if s.threadRunning && s.terminate
  then { s with threadRunning := false }
  else s

end VendorDevice

namespace VendorDevice

/-- C2 counterexample: open two devices, close one — the count is still 1
but the first close already set the terminate flag, and as soon as the
event loop checks it the background thread exits: no background thread
exists although the open-device count is greater than 0, and the stop was
requested by the first close, not the final one. -/
theorem C2_counterexample :
    (CloseDevice (OpenDevice (OpenDevice initThread))).devices = 1
    ∧ (CloseDevice (OpenDevice (OpenDevice initThread))).terminate = true
    ∧ (ThreadStep (CloseDevice (OpenDevice (OpenDevice initThread)))).devices = 1
    ∧ (ThreadStep (CloseDevice (OpenDevice
        (OpenDevice initThread)))).threadRunning = false := by
  decide

/-- C2 (amended): only the 0→1 open transition spawns a thread (two
sequential opens start it once) and the thread is joined exactly once,
by the close that brings the count to 0 — but EVERY close while the
count is > 0 requests termination, so after the first of two closes the
terminate flag is already set and the event loop may exit while a device
is still open; a live background thread is guaranteed only until the
first close, and full termination is guaranteed once the count is 0. -/
theorem C2_thread_lifecycle (s : LibUsbThreadState) :
    ((OpenDevice s).spawnCount
        = s.spawnCount + (if s.devices = 0 then 1 else 0))
    ∧ ((OpenDevice s).devices = s.devices + 1)
    ∧ (s.devices > 0 → (CloseDevice s).terminate = true)
    ∧ (s.devices = 1 → (CloseDevice s).threadRunning = false
        ∧ (CloseDevice s).joinCount = s.joinCount + 1
        ∧ (CloseDevice s).devices = 0)
    ∧ (s.devices > 1 → (CloseDevice s).joinCount = s.joinCount
        ∧ (CloseDevice s).terminate = true)
    ∧ ((CloseDevice (CloseDevice (OpenDevice
          (OpenDevice initThread)))).spawnCount = 1
        ∧ (CloseDevice (CloseDevice (OpenDevice
            (OpenDevice initThread)))).joinCount = 1
        ∧ (CloseDevice (CloseDevice (OpenDevice
            (OpenDevice initThread)))).threadRunning = false
        ∧ (CloseDevice (CloseDevice (OpenDevice
            (OpenDevice initThread)))).devices = 0) := by
  refine ⟨?_, ?_, fun h => ?_, fun h => ?_, fun h => ?_, by decide⟩
  · unfold OpenDevice
    by_cases h : s.devices = 0
    · simp [h]
    · rw [if_neg (by omega), if_neg h]
      simp
  · unfold OpenDevice
    split <;> rfl
  · unfold CloseDevice
    split
    · split <;> rfl
    · exfalso
      omega
  · unfold CloseDevice
    rw [h]
    exact ⟨rfl, rfl, rfl⟩
  · unfold CloseDevice
    have ht : (if s.devices > 0 then true else s.terminate) = true :=
      if_pos (by omega)
    rw [if_neg (by omega)]
    simp [ht]

/-- Witness for C2's amended theorem at the one-device state: the single
close sets the flag, joins, and leaves the count at 0. -/
theorem C2_thread_lifecycle_witness :
    (CloseDevice (OpenDevice initThread)).terminate = true
    ∧ (CloseDevice (OpenDevice initThread)).threadRunning = false
    ∧ (CloseDevice (OpenDevice initThread)).joinCount
        = (OpenDevice initThread).joinCount + 1 := by
  have h := C2_thread_lifecycle (OpenDevice initThread)
  exact ⟨h.2.2.1 (by decide), (h.2.2.2.1 (by decide)).1, (h.2.2.2.1 (by decide)).2.1⟩

/-! ### Action-level view of `_InternalRun` (lines 109-118) for C9 -/

inductive RunAction
  | lockMutex
  | unlockMutex
  | handleEvents
  | ret
  deriving DecidableEq, Repr

/-- One iteration of the `_InternalRun` loop body as its sequence of
primitive actions: `pthread_mutex_lock`; if `m_terminate`, `return NULL`
(with no unlock before it); else `pthread_mutex_unlock` and then the
blocking `libusb_handle_events` call. -/
def internalRunIter (terminate : Bool) : List RunAction :=
  RunAction.lockMutex ::
    (if terminate then [RunAction.ret]
     else [RunAction.unlockMutex, RunAction.handleEvents])

/-- Whether the mutex is held after performing the actions, given whether
it is held on entry. -/
def mutexHeldAfter : Bool → List RunAction → Bool
  | held, [] => held
  | _, RunAction.lockMutex :: r => mutexHeldAfter true r
  | _, RunAction.unlockMutex :: r => mutexHeldAfter false r
  | held, RunAction.handleEvents :: r => mutexHeldAfter held r
  | held, RunAction.ret :: r => mutexHeldAfter held r

/-- C9: when the loop body observes the terminate flag it returns while
still holding the mutex (the exit path has no unlock); on the continue
path the lock is released before the blocking event-processing call. -/
theorem C9_exit_path_holds_mutex :
    (internalRunIter true = [RunAction.lockMutex, RunAction.ret]
      ∧ mutexHeldAfter false (internalRunIter true) = true
      ∧ RunAction.unlockMutex ∉ internalRunIter true)
    ∧ (internalRunIter false
        = [RunAction.lockMutex, RunAction.unlockMutex, RunAction.handleEvents]
      ∧ mutexHeldAfter false ((internalRunIter false).take 2) = false
      ∧ RunAction.ret ∉ internalRunIter false) := by
  decide

end VendorDevice
